import Mathlib

/-!
Verification of the instrumented HTTP fetcher (`src/index.js`).

The repository is a thin resilient wrapper around `node-fetch`:

* `_fetch(url, options, retries = 1)` — the retrying transport: it calls the
  external transport once; on an error it recurses with `retries + 1` while
  `retries < constants.MaxRetries` and the error is not timeout-classified
  (`err.type !== constants.TimeoutErrorString`), otherwise it rethrows the
  error unchanged.
* `Fetcher.fetch(url, options)` — merges the caller's options over
  `constants.DefaultRequestOptions`, optionally wraps the `_fetch` call in a
  metrics-timed span (when a process-wide `metricsTracker` was registered and
  the merged options do not set `skipTrackRequest`), warns when the whole-second
  part of the elapsed `process.hrtime` reading is at least
  `constants.WarnAfterSeconds`, drains the response body into a buffer once and
  replaces the `text`/`json`/`buffer` accessors with closures over that buffer,
  and on any failure logs one error line and rethrows the original error.

Shallow embedding used here:

* The external transport is an oracle `Nat → Outcome` giving the result of the
  k-th attempt (attempts are numbered from 1, matching `retries = 1`).
* JavaScript errors are `Err` records carrying the observable fields the code
  inspects (`type`, `message`); rethrowing "the same object" is returning the
  same `Err` value.
* The configuration constants live in `constants.js`, which is part of the
  repository but not under `src/`; they are modelled as an abstract `Config`
  record, so every theorem quantifies over the possible constant values
  (the spec fixes only `MaxRetries ≥ 1`).
* Wall-clock time is an input: `elapsedSecs` is the whole-second component
  `endTime[0]` of the single `process.hrtime(startTime)` reading the executed
  path takes.
* The metrics collaborator (`nodejs-metrics`, external) is modelled from the
  spec's contract: `trackHistogramDuration` runs the action and records exactly
  one histogram observation for the call; the embedding counts observations.
* `JSON.parse` (a JavaScript builtin) is modelled by an executable JSON
  grammar checker `jsonParse` below, and `Buffer#toString` by the identity on
  the buffered text.
-/

/-- JavaScript primitive values as far as the fetcher observes them:
option-map fields are read (`mergedOptions.skipTrackRequest`,
`mergedOptions.method`) and tested for truthiness. -/
inductive JsVal where
  | undefined
  | bool (b : Bool)
  | str (s : String)
  | num (n : Int)
deriving DecidableEq, Repr

/-- JavaScript truthiness for the values of `JsVal`. -/
def truthy : JsVal → Bool
  | .undefined => false
  | .bool b => b
  | .str s => !(s = "")
  | .num n => !(n = 0)

/-- A JavaScript object as an association list; an earlier entry shadows a
later one (see `objAssign`). -/
abbrev Obj := List (String × JsVal)

/-- Property lookup: the first binding of the key, `undefined` when absent. -/
def objGet (o : Obj) (k : String) : JsVal :=
  match List.find? (fun p => p.1 = k) o with
  | some p => p.2
  | none => .undefined

/-- Model of `Object.assign({}, base, extra)`: a fresh object in which the keys of
`extra` override those of `base`.  With first-binding lookup this is exactly
`extra ++ base`. -/
def objAssign (base extra : Obj) : Obj :=
  extra ++ base

/-- A JavaScript error as the fetcher observes it: `err.type` (compared
against `constants.TimeoutErrorString`; `none` models `undefined`) and
`err.message` (interpolated into the error log line). -/
structure Err where
  type : Option String
  message : String
deriving DecidableEq, Repr

/-- The external transport's response: the numeric status and the byte buffer
its body drains to (`response.buffer()`).  The buffer is modelled as the text
`Buffer#toString` decodes it to. -/
structure RawResponse where
  status : Nat
  body : String
deriving DecidableEq, Repr

/-- The result of one transport attempt: `node-fetch` either resolves with a
response or rejects with an error. -/
inductive Outcome where
  | ok (r : RawResponse)
  | err (e : Err)
deriving DecidableEq, Repr

/-- The repository's configuration constants (`constants.js`, outside `src/`):
`MaxRetries`, `TimeoutErrorString`, `WarnAfterSeconds` and
`DefaultRequestOptions`, kept abstract so results hold for any values. -/
structure Config where
  MaxRetries : Nat
  WarnAfterSeconds : Nat
  TimeoutErrorString : String
  DefaultRequestOptions : Obj

/-- Structural-recursion engine for `_fetch`: `gas` counts how many further
retries the bound still allows, i.e. `gas = MaxRetries - retries` (truncated
subtraction), so `gas = 0` exactly when `retries < MaxRetries` fails.
`fetchFrom_eq` below restates this as the literal recursion of the source. -/
def fetchGo (cfg : Config) (oracle : Nat → Outcome) : Nat → Nat → Outcome × Nat
  | retries, 0 =>
    (match oracle retries with
     | .ok r => (.ok r, retries)
     | .err e => (.err e, retries))
  | retries, gas + 1 =>
    (match oracle retries with
     | .ok r => (.ok r, retries)
     | .err e =>
       if e.type ≠ some cfg.TimeoutErrorString then
         fetchGo cfg oracle (retries + 1) gas
       else
         (.err e, retries))

/-- The retrying transport `_fetch(url, options, retries)` run from attempt
number `retries`, together with the number of the attempt that produced the
final outcome.  The url/options arguments are already folded into `oracle`. -/
def fetchFrom (cfg : Config) (oracle : Nat → Outcome) (retries : Nat) : Outcome × Nat :=
  fetchGo cfg oracle retries (cfg.MaxRetries - retries)

/-- The entry call `_fetch(url, options)`, with the source's default `retries = 1`. -/
def _fetch (cfg : Config) (oracle : Nat → Outcome) : Outcome × Nat :=
  fetchFrom cfg oracle 1

/-- JSON values, as produced by the modelled `JSON.parse`.  Number literals
are kept as their source text (their numeric value is never inspected by the
fetcher). -/
inductive Json where
  | null
  | bool (b : Bool)
  | num (lit : String)
  | str (s : String)
  | arr (elems : List Json)
  | obj (members : List (String × Json))

/-- JSON insignificant whitespace. -/
def isJsonWs (c : Char) : Bool :=
  c = ' ' || c = '\t' || c = '\n' || c = '\r'

/-- Drop leading JSON whitespace. -/
def skipJsonWs : List Char → List Char
  | [] => []
  | c :: cs => if isJsonWs c then skipJsonWs cs else c :: cs

/-- Consume an expected literal tail (the `rue` of `true`, etc.). -/
def dropLit : List Char → List Char → Option (List Char)
  | [], cs => some cs
  | p :: ps, c :: cs => if c = p then dropLit ps cs else none
  | _ :: _, [] => none

/-- Hexadecimal digit value. -/
def hexVal (c : Char) : Option Nat :=
  if c.isDigit then some (c.toNat - 48)
  else if 'a' ≤ c ∧ c ≤ 'f' then some (c.toNat - 87)
  else if 'A' ≤ c ∧ c ≤ 'F' then some (c.toNat - 55)
  else none

/-- Map a JSON escape character to the character it denotes. -/
def unescape (c : Char) : Option Char :=
  if c = '"' then some '"'
  else if c = '\\' then some '\\'
  else if c = '/' then some '/'
  else if c = 'b' then some (Char.ofNat 8)
  else if c = 'f' then some (Char.ofNat 12)
  else if c = 'n' then some '\n'
  else if c = 'r' then some '\r'
  else if c = 't' then some '\t'
  else none

/-- Parse the body of a JSON string after the opening quote, accumulating the
decoded characters in reverse. -/
def parseStringBody : List Char → List Char → Option (String × List Char)
  | acc, '"' :: rest => some (String.mk acc.reverse, rest)
  | acc, '\\' :: 'u' :: h1 :: h2 :: h3 :: h4 :: rest =>
    (match hexVal h1, hexVal h2, hexVal h3, hexVal h4 with
     | some a, some b, some c, some d =>
       parseStringBody (Char.ofNat (((a * 16 + b) * 16 + c) * 16 + d) :: acc) rest
     | _, _, _, _ => none)
  | acc, '\\' :: e :: rest =>
    (match unescape e with
     | some c => parseStringBody (c :: acc) rest
     | none => none)
  | _, [] => none
  | acc, c :: rest =>
    if c.toNat < 32 then none else parseStringBody (c :: acc) rest

/-- Split off a maximal run of decimal digits. -/
def takeDigits : List Char → List Char × List Char
  | [] => ([], [])
  | c :: cs =>
    if c.isDigit then
      (let p := takeDigits cs
       (c :: p.1, p.2))
    else ([], c :: cs)

/-- The integer part of a JSON number: `0`, or a nonzero digit followed by
digits. -/
def parseIntPart : List Char → Option (List Char × List Char)
  | '0' :: rest => some (['0'], rest)
  | c :: rest =>
    if c.isDigit then
      (let p := takeDigits rest
       some (c :: p.1, p.2))
    else none
  | [] => none

/-- The optional fraction part `.digits`. -/
def parseFracPart (cs : List Char) : Option (List Char × List Char) :=
  match cs with
  | '.' :: rest =>
    (let p := takeDigits rest
     if p.1 = [] then none else some ('.' :: p.1, p.2))
  | _ => some ([], cs)

/-- The optional exponent part `e[+-]digits`. -/
def parseExpPart (cs : List Char) : Option (List Char × List Char) :=
  match cs with
  | c :: rest =>
    if c = 'e' ∨ c = 'E' then
      (match rest with
       | s :: rest2 =>
         if s = '+' ∨ s = '-' then
           (let p := takeDigits rest2
            if p.1 = [] then none else some (c :: s :: p.1, p.2))
         else
           (let p := takeDigits rest
            if p.1 = [] then none else some (c :: p.1, p.2))
       | [] => none)
    else some ([], cs)
  | [] => some ([], cs)

/-- A JSON number literal, returned as its source text. -/
def parseNumber (cs : List Char) : Option (String × List Char) :=
  let (sign, cs1) :=
    match cs with
    | '-' :: rest => (['-'], rest)
    | _ => (([] : List Char), cs)
  match parseIntPart cs1 with
  | none => none
  | some (ip, cs2) =>
    match parseFracPart cs2 with
    | none => none
    | some (fp, cs3) =>
      match parseExpPart cs3 with
      | none => none
      | some (ep, cs4) => some (String.mk (sign ++ ip ++ fp ++ ep), cs4)

mutual

/-- Parse one JSON value.  `fuel` bounds the recursion depth; `jsonParse`
supplies more fuel than any input can consume. -/
def parseValue : Nat → List Char → Option (Json × List Char)
  | 0, _ => none
  | fuel + 1, cs =>
    match cs with
    | [] => none
    | c :: rest =>
      if c = '"' then
        (parseStringBody [] rest).map (fun p => (.str p.1, p.2))
      else if c = '[' then
        (match skipJsonWs rest with
         | ']' :: rest2 => some (.arr [], rest2)
         | other => parseArrayItems fuel other [])
      else if c = '\x7b' then
        (match skipJsonWs rest with
         | '\x7d' :: rest2 => some (.obj [], rest2)
         | other => parseObjMembers fuel other [])
      else if c = 't' then
        (dropLit ['r', 'u', 'e'] rest).map (fun r => (.bool true, r))
      else if c = 'f' then
        (dropLit ['a', 'l', 's', 'e'] rest).map (fun r => (.bool false, r))
      else if c = 'n' then
        (dropLit ['u', 'l', 'l'] rest).map (fun r => (.null, r))
      else
        (parseNumber (c :: rest)).map (fun p => (.num p.1, p.2))

/-- Parse the remaining comma-separated items of a non-empty JSON array. -/
def parseArrayItems : Nat → List Char → List Json → Option (Json × List Char)
  | 0, _, _ => none
  | fuel + 1, cs, acc =>
    match parseValue fuel cs with
    | none => none
    | some (v, rest) =>
      match skipJsonWs rest with
      | ',' :: rest2 => parseArrayItems fuel (skipJsonWs rest2) (v :: acc)
      | ']' :: rest2 => some (.arr (v :: acc).reverse, rest2)
      | _ => none

/-- Parse the remaining comma-separated members of a non-empty JSON object. -/
def parseObjMembers : Nat → List Char → List (String × Json) → Option (Json × List Char)
  | 0, _, _ => none
  | fuel + 1, cs, acc =>
    match cs with
    | '"' :: rest =>
      (match parseStringBody [] rest with
       | none => none
       | some (k, rest1) =>
         match skipJsonWs rest1 with
         | ':' :: rest2 =>
           (match parseValue fuel (skipJsonWs rest2) with
            | none => none
            | some (v, rest3) =>
              match skipJsonWs rest3 with
              | ',' :: rest4 => parseObjMembers fuel (skipJsonWs rest4) ((k, v) :: acc)
              | '\x7d' :: rest4 => some (.obj ((k, v) :: acc).reverse, rest4)
              | _ => none)
         | _ => none)
    | _ => none

end

/-- Model of the JavaScript builtin `JSON.parse` applied to
`buffer.toString()`: accept exactly the strings that are one JSON value
surrounded by whitespace; reject everything else with a `SyntaxError`, the
error whose `toString()` the fetcher appends to its own message. -/
def jsonParse (s : String) : Except String Json :=
  match parseValue (2 * s.length + 8) (skipJsonWs s.data) with
  | some (v, rest) =>
    if skipJsonWs rest = [] then .ok v
    else .error "SyntaxError: Unexpected token in JSON"
  | none => .error "SyntaxError: Unexpected token in JSON"

/-- The augmented response `Fetcher.fetch` returns: the raw status, the
requested url (captured by the `json` closure for its error message) and the
single drained byte buffer all accessors close over. -/
structure BufferedResponse where
  status : Nat
  url : String
  buf : String
deriving DecidableEq, Repr

/-- The reassigned accessor `response.text = async () => buffer.toString()`. -/
def BufferedResponse.text (b : BufferedResponse) : String :=
  b.buf

/-- The reassigned accessor `response.buffer = async () => buffer`. -/
def BufferedResponse.buffer (b : BufferedResponse) : String :=
  b.buf

/-- The message of the error thrown by the reassigned `json` accessor:
`Error parsing response from ${url}. Status: ${response.status}.
Body: ${buffer.toString()}. ${e.toString()}`. -/
def jsonErrorMessage (url : String) (status : Nat) (body : String) (parseErr : String) : String :=
  "Error parsing response from " ++ url ++ ". Status: " ++ toString status ++
    ". Body: " ++ body ++ ". " ++ parseErr

/-- The reassigned accessor `response.json`: parse the buffered text, wrapping
a parse failure in the descriptive error. -/
def BufferedResponse.json (b : BufferedResponse) : Except String Json :=
  match jsonParse b.buf with
  | .ok v => .ok v
  | .error e => .error (jsonErrorMessage b.url b.status b.buf e)

/-- One caller-side accessor invocation on the augmented response. -/
inductive Accessor where
  | text
  | buffer
  | json
deriving DecidableEq, Repr

/-- The value an accessor invocation produces. -/
inductive AccResult where
  | str (s : String)
  | bytes (b : String)
  | jsonOk (v : Json)
  | jsonErr (m : String)

/-- Invoke one accessor on the augmented response.  The reassigned accessors
are closures over the one buffer, with no mutable state, so this is a pure
function of the response. -/
def BufferedResponse.call (b : BufferedResponse) : Accessor → AccResult
  | .text => .str b.text
  | .buffer => .bytes b.buffer
  | .json =>
    match b.json with
    | .ok v => .jsonOk v
    | .error m => .jsonErr m

/-- Invoke a whole sequence of accessor calls, in order. -/
def runCalls (b : BufferedResponse) (calls : List Accessor) : List AccResult :=
  calls.map b.call

/-- Whether an accessor invocation succeeded (`json` on a malformed body is
the only rejecting case). -/
def AccResult.succeeded : AccResult → Bool
  | .str _ => true
  | .bytes _ => true
  | .jsonOk _ => true
  | .jsonErr _ => false

/-- The slow-call warning line
`Request to ${url} took ${endTime[0]} seconds to execute.`. -/
def warnMessage (url : String) (secs : Nat) : String :=
  "Request to " ++ url ++ " took " ++ toString secs ++ " seconds to execute."

/-- The failure log line
`Failed request for ${url} with "${error.message}" after ${endTime[0]} seconds`. -/
def errorMessage (url : String) (msg : String) (secs : Nat) : String :=
  "Failed request for " ++ url ++ " with \"" ++ msg ++ "\" after " ++
    toString secs ++ " seconds"

/-- Substring containment: `sub` occurs contiguously inside `s`. -/
def strContains (s sub : String) : Prop :=
  ∃ a b, s = a ++ sub ++ b

deriving instance DecidableEq for Except

/-- Everything one outer `Fetcher.fetch` call produces: its return value or
error, the warn and error log lines it emitted, the number of histogram
observations recorded for it, and the number of times the transport body
stream was drained. -/
structure FetchResult where
  result : Except Err BufferedResponse
  warns : List String
  errors : List String
  observations : Nat
  bodyReads : Nat
deriving DecidableEq, Repr

/-- Model of `Fetcher._setDefaultOptions`:
`Object.assign({}, constants.DefaultRequestOptions, options)`. -/
def Fetcher._setDefaultOptions (cfg : Config) (options : Obj) : Obj :=
  objAssign cfg.DefaultRequestOptions options

/-- The body of `Fetcher.fetch` after option merging, for a given merged
option object.

* `shouldTrackRequest` is `!mergedOptions.skipTrackRequest && metricsTracker`.
* The tracked path runs `_fetch` inside the metrics collaborator's
  `trackHistogramDuration`; the untracked path runs `_fetch` directly.  The
  collaborator (external `nodejs-metrics`) is modelled from the spec's
  contract: it runs the action, measures it, and records exactly one
  histogram observation for the call, so the tracked path contributes one
  observation and the untracked path none.
* On success: one `hrtime` reading, a warning when its whole-second part
  reaches `WarnAfterSeconds`, one drain of the body into the buffer, and the
  augmented response.
* On failure: one `hrtime` reading, one error log line, and a rethrow of the
  same error object. -/
def Fetcher.fetchMerged (cfg : Config) (trackerRegistered : Bool) (url : String)
    (mergedOptions : Obj) (oracle : Nat → Outcome) (elapsedSecs : Nat) : FetchResult :=
  let shouldTrackRequest := !truthy (objGet mergedOptions "skipTrackRequest") && trackerRegistered
  let observations := if shouldTrackRequest then 1 else 0
  match _fetch cfg oracle with
  | (.ok r, _) =>
    { result := .ok { status := r.status, url := url, buf := r.body }
      warns :=
        if cfg.WarnAfterSeconds ≤ elapsedSecs then [warnMessage url elapsedSecs] else []
      errors := []
      observations := observations
      bodyReads := 1 }
  | (.err e, _) =>
    { result := .error e
      warns := []
      errors := [errorMessage url e.message elapsedSecs]
      observations := observations
      bodyReads := 0 }

/-- Model of `Fetcher.fetch(url, options)`: merge the caller's options over the
defaults, then run the pipeline. -/
def Fetcher.fetch (cfg : Config) (trackerRegistered : Bool) (url : String)
    (options : Obj) (oracle : Nat → Outcome) (elapsedSecs : Nat) : FetchResult :=
  Fetcher.fetchMerged cfg trackerRegistered url (Fetcher._setDefaultOptions cfg options)
    oracle elapsedSecs

/-- An object heap, for stating that the caller's option object is not
mutated: JavaScript objects live behind references. -/
structure Heap where
  objs : List Obj
deriving DecidableEq, Repr

/-- Dereference. -/
def Heap.get (h : Heap) (r : Nat) : Option Obj :=
  h.objs[r]?

/-- Allocate a fresh object (`Object.assign({}, ...)` starts from a fresh
`{}`) and return its reference. -/
def Heap.alloc (h : Heap) (o : Obj) : Heap × Nat :=
  ({ objs := h.objs ++ [o] }, h.objs.length)

/-- Heap version of `Fetcher._setDefaultOptions`: read the caller's object,
build the merged copy in a fresh object, return its reference.  The caller's
object is only read. -/
def Fetcher._setDefaultOptionsHeap (cfg : Config) (h : Heap) (optRef : Nat) : Heap × Nat :=
  Heap.alloc h (objAssign cfg.DefaultRequestOptions ((Heap.get h optRef).getD []))

/-- Heap version of `Fetcher.fetch`, with the caller's options taken from the heap; returns the
final heap and the reference of the merged object alongside the result. -/
def Fetcher.fetchHeap (cfg : Config) (trackerRegistered : Bool) (url : String)
    (h : Heap) (optRef : Nat) (oracle : Nat → Outcome) (elapsedSecs : Nat) :
    FetchResult × Heap × Nat :=
  let p := Fetcher._setDefaultOptionsHeap cfg h optRef
  (Fetcher.fetchMerged cfg trackerRegistered url ((Heap.get p.1 p.2).getD []) oracle
    elapsedSecs, p.1, p.2)

/-- A concrete configuration used to instantiate the theorems: three
attempts allowed, warn at ten seconds, default method GET. -/
def cfgEx : Config :=
  { MaxRetries := 3
    WarnAfterSeconds := 10
    TimeoutErrorString := "request-timeout"
    DefaultRequestOptions := [("method", JsVal.str "GET")] }

/-- A second concrete configuration: two attempts allowed, warn at three
seconds. -/
def cfgWarn : Config :=
  { MaxRetries := 2
    WarnAfterSeconds := 3
    TimeoutErrorString := "request-timeout"
    DefaultRequestOptions := [] }

/-- The url used by the concrete instances. -/
def urlW : String :=
  "https://api.example.com/items"

/-- A family of connection-reset errors, one per attempt, with per-attempt
messages so the theorems can tell the attempts' errors apart. -/
def errsW : Nat → Err :=
  fun k => { type := some "system", message := "ECONNRESET attempt " ++ toString k }

/-- A timeout-classified transport error, as `node-fetch` raises it. -/
def timeoutErrW : Err :=
  { type := some "request-timeout", message := "network timeout at: " ++ urlW }

/-- A successful 200 response with a JSON body. -/
def respW : RawResponse :=
  { status := 200, body := "\x7b\"id\":1\x7d" }

/-- A transport that always succeeds with `respW`. -/
def oracleOkW : Nat → Outcome :=
  fun _ => .ok respW

/-- A transport that always succeeds with a body that is not valid JSON. -/
def oracleBadBody : Nat → Outcome :=
  fun _ => .ok { status := 200, body := "not json" }

/-- A transport that always rejects with the timeout error. -/
def oracleTimeout : Nat → Outcome :=
  fun _ => .err timeoutErrW

/-- A transport whose every attempt rejects with a connection reset. -/
def oracleAllFail : Nat → Outcome :=
  fun k => .err (errsW k)

/-- A transport that rejects with a connection reset until the last allowed
attempt of `cfgEx`, which succeeds. -/
def oracleLastOk : Nat → Outcome :=
  fun k => if k = cfgEx.MaxRetries then .ok respW else .err (errsW k)

/-- A transport that immediately returns a 404 response. -/
def oracle404 : Nat → Outcome :=
  fun _ => .ok { status := 404, body := "missing" }

/-- A one-object heap holding the caller's options. -/
def heapW : Heap :=
  { objs := [[("method", JsVal.str "POST")]] }

/-- A resolved attempt stops `fetchGo` whatever gas remains. -/
theorem fetchGo_ok (cfg : Config) (oracle : Nat → Outcome) (k : Nat)
    (r : RawResponse) (h : oracle k = .ok r) (gas : Nat) :
    fetchGo cfg oracle k gas = (.ok r, k) := by
  cases gas <;> simp [fetchGo, h]

/-- A rejected attempt with no gas left surfaces the error. -/
theorem fetchGo_err_zero (cfg : Config) (oracle : Nat → Outcome) (k : Nat)
    (e : Err) (h : oracle k = .err e) :
    fetchGo cfg oracle k 0 = (.err e, k) := by
  simp [fetchGo, h]

/-- A rejected attempt with gas left retries unless the error is
timeout-classified. -/
theorem fetchGo_err_succ (cfg : Config) (oracle : Nat → Outcome) (k : Nat)
    (e : Err) (h : oracle k = .err e) (g : Nat) :
    fetchGo cfg oracle k (g + 1) =
      if e.type ≠ some cfg.TimeoutErrorString then fetchGo cfg oracle (k + 1) g
      else (.err e, k) := by
  simp [fetchGo, h]

/-- Characteristic equation of `fetchFrom`: it is the source's recursion
`try { return await fetch(...) } catch (err) { if (retries < MaxRetries &&
err.type !== TimeoutErrorString) return _fetch(url, options, retries + 1);
throw err; }`. -/
theorem fetchFrom_eq (cfg : Config) (oracle : Nat → Outcome) (retries : Nat) :
    fetchFrom cfg oracle retries =
      match oracle retries with
      | .ok r => (.ok r, retries)
      | .err e =>
        if retries < cfg.MaxRetries ∧ e.type ≠ some cfg.TimeoutErrorString then
          fetchFrom cfg oracle (retries + 1)
        else
          (.err e, retries) := by
  rcases hE : oracle retries with r | e
  · rw [fetchFrom, fetchGo_ok cfg oracle retries r hE]
  · rcases hgas : cfg.MaxRetries - retries with _ | g
    · have hnot : ¬ (retries < cfg.MaxRetries ∧ e.type ≠ some cfg.TimeoutErrorString) := by
        intro hc
        omega
      rw [fetchFrom, hgas, fetchGo_err_zero cfg oracle retries e hE]
      simp only [if_neg hnot]
    · have hlt : retries < cfg.MaxRetries := by omega
      have hgas' : cfg.MaxRetries - (retries + 1) = g := by omega
      rw [fetchFrom, hgas, fetchGo_err_succ cfg oracle retries e hE g]
      by_cases ht : e.type = some cfg.TimeoutErrorString
      · simp [ht]
      · simp only [fetchFrom, hgas', ne_eq, ht, not_false_iff, if_true, hlt, true_and,
          if_pos]

/-- An attempt that resolves with a response ends the recursion at once,
whatever the response's status. -/
theorem fetchFrom_ok (cfg : Config) (oracle : Nat → Outcome) (k : Nat)
    (r : RawResponse) (h : oracle k = .ok r) :
    fetchFrom cfg oracle k = (.ok r, k) := by
  rw [fetchFrom_eq, h]

/-- An attempt that rejects ends the recursion when the retry guard fails:
either the bound is reached or the error is timeout-classified. -/
theorem fetchFrom_stop (cfg : Config) (oracle : Nat → Outcome) (k : Nat)
    (e : Err) (h : oracle k = .err e)
    (hstop : ¬ (k < cfg.MaxRetries ∧ e.type ≠ some cfg.TimeoutErrorString)) :
    fetchFrom cfg oracle k = (.err e, k) := by
  rw [fetchFrom_eq, h]
  simp only [if_neg hstop]

/-- An attempt that rejects with a non-timeout error below the bound retries
with the next attempt number. -/
theorem fetchFrom_step (cfg : Config) (oracle : Nat → Outcome) (k : Nat)
    (e : Err) (h : oracle k = .err e) (hlt : k < cfg.MaxRetries)
    (hnt : e.type ≠ some cfg.TimeoutErrorString) :
    fetchFrom cfg oracle k = fetchFrom cfg oracle (k + 1) := by
  rw [fetchFrom_eq, h]
  simp only [if_pos (And.intro hlt hnt)]

/-- Skipping a block of non-timeout failures: if every attempt in `[r0, m)`
rejects with a non-timeout error and `m` is within the bound, running from
`r0` is the same as running from `m`. -/
theorem fetchFrom_skip (cfg : Config) (oracle : Nat → Outcome) :
    ∀ m r0, r0 ≤ m → m ≤ cfg.MaxRetries →
    (∀ k, r0 ≤ k → k < m →
      ∃ e, oracle k = .err e ∧ e.type ≠ some cfg.TimeoutErrorString) →
    fetchFrom cfg oracle r0 = fetchFrom cfg oracle m := by
  intro m
  induction m with
  | zero =>
    intro r0 hr0 _ _
    have h0 : r0 = 0 := by omega
    rw [h0]
  | succ m ih =>
    intro r0 hr0 hm hfail
    by_cases heq : r0 = m + 1
    · rw [heq]
    · have hr0m : r0 ≤ m := by omega
      have step1 : fetchFrom cfg oracle r0 = fetchFrom cfg oracle m := by
        exact ih r0 hr0m (by omega) (fun k hk1 hk2 => hfail k hk1 (by omega))
      obtain ⟨e, he, hnt⟩ := hfail m hr0m (by omega)
      rw [step1]
      exact fetchFrom_step cfg oracle m e he (by omega) hnt

/-- Sanity check of the `JSON.parse` model: free text is rejected. -/
theorem jsonParse_garbage :
    jsonParse "not json" = .error "SyntaxError: Unexpected token in JSON" := by rfl

/-- Sanity check of the `JSON.parse` model: the null literal parses. -/
theorem jsonParse_null : jsonParse "null" = .ok .null := by rfl

/-- Sanity check of the `JSON.parse` model: an object with whitespace parses. -/
theorem jsonParse_object :
    jsonParse " \x7b \"id\" : 1 , \"ok\" : true \x7d " =
      .ok (.obj [("id", .num "1"), ("ok", .bool true)]) := by rfl

/-- Sanity check of the `JSON.parse` model: a nested array parses. -/
theorem jsonParse_array :
    jsonParse "[1, \"a\", [ ] ]" = .ok (.arr [.num "1", .str "a", .arr []]) := by rfl

/-- Sanity check of the `JSON.parse` model: a signed scientific number parses. -/
theorem jsonParse_number : jsonParse "-12.5e+3" = .ok (.num "-12.5e+3") := by rfl

/-- Sanity check of the `JSON.parse` model: an unterminated object is rejected. -/
theorem jsonParse_unterminated :
    jsonParse "\x7b" = .error "SyntaxError: Unexpected token in JSON" := by rfl

/-- Sanity check of the `JSON.parse` model: the empty string is rejected. -/
theorem jsonParse_empty :
    jsonParse "" = .error "SyntaxError: Unexpected token in JSON" := by rfl

/-- Sanity check of the `JSON.parse` model: a leading zero is rejected. -/
theorem jsonParse_leadingZero :
    jsonParse "01" = .error "SyntaxError: Unexpected token in JSON" := by rfl

/-- Every attempt numbered strictly before the attempt that produced the
final outcome rejected with a non-timeout error: only such failures make the
recursion move on to another attempt. -/
theorem fetchFrom_earlier_err (cfg : Config) (oracle : Nat → Outcome) :
    ∀ n r0, cfg.MaxRetries - r0 ≤ n → ∀ k, r0 ≤ k → k < (fetchFrom cfg oracle r0).2 →
      ∃ e, oracle k = .err e ∧ e.type ≠ some cfg.TimeoutErrorString := by
  intro n
  induction n with
  | zero =>
    intro r0 hn k hk1 hk2
    rcases hE : oracle r0 with r | e
    · rw [fetchFrom_ok cfg oracle r0 r hE] at hk2
      omega
    · rw [fetchFrom_stop cfg oracle r0 e hE (by intro hc; omega)] at hk2
      omega
  | succ n ih =>
    intro r0 hn k hk1 hk2
    rcases hE : oracle r0 with r | e
    · rw [fetchFrom_ok cfg oracle r0 r hE] at hk2
      omega
    · by_cases hc : r0 < cfg.MaxRetries ∧ e.type ≠ some cfg.TimeoutErrorString
      · rw [fetchFrom_step cfg oracle r0 e hE hc.1 hc.2] at hk2
        by_cases hk0 : k = r0
        · exact ⟨e, hk0 ▸ hE, hc.2⟩
        · exact ih (r0 + 1) (by omega) k (by omega) hk2
      · rw [fetchFrom_stop cfg oracle r0 e hE hc] at hk2
        omega

/-- Claim C2: when every transport attempt rejects with a non-timeout error,
`_fetch` makes exactly `MaxRetries` attempts and fails with the very error
object the last attempt produced (the earlier attempts' errors are
discarded), and `Fetcher.fetch` surfaces that same error. -/
theorem retryExhaustion (cfg : Config) (errs : Nat → Err) (tr : Bool)
    (url : String) (options : Obj) (t : Nat)
    (hM : 1 ≤ cfg.MaxRetries)
    (hnt : ∀ k, (errs k).type ≠ some cfg.TimeoutErrorString) :
    _fetch cfg (fun k => .err (errs k)) = (.err (errs cfg.MaxRetries), cfg.MaxRetries) ∧
    (Fetcher.fetch cfg tr url options (fun k => .err (errs k)) t).result =
      .error (errs cfg.MaxRetries) := by
  have hskip : _fetch cfg (fun k => .err (errs k)) =
      fetchFrom cfg (fun k => .err (errs k)) cfg.MaxRetries :=
    fetchFrom_skip cfg (fun k => .err (errs k)) cfg.MaxRetries 1 hM le_rfl
      (fun k _ _ => ⟨errs k, rfl, hnt k⟩)
  have hstop : fetchFrom cfg (fun k => .err (errs k)) cfg.MaxRetries =
      (.err (errs cfg.MaxRetries), cfg.MaxRetries) :=
    fetchFrom_stop cfg (fun k => .err (errs k)) cfg.MaxRetries (errs cfg.MaxRetries) rfl
      (by intro hc; omega)
  have hfetch : _fetch cfg (fun k => .err (errs k)) =
      (.err (errs cfg.MaxRetries), cfg.MaxRetries) := hskip.trans hstop
  refine ⟨hfetch, ?_⟩
  simp [Fetcher.fetch, Fetcher.fetchMerged, hfetch]

/-- Claim C3: when the transport rejects with a non-timeout error on every
attempt before attempt `MaxRetries` and succeeds on attempt `MaxRetries`,
`_fetch` returns that response on attempt `MaxRetries` (the retry ceiling
includes the final attempt) and `Fetcher.fetch` returns the buffered form of
that response. -/
theorem retrySucceedsOnFinalAttempt (cfg : Config) (errs : Nat → Err)
    (resp : RawResponse) (tr : Bool) (url : String) (options : Obj) (t : Nat)
    (hM : 1 ≤ cfg.MaxRetries)
    (hnt : ∀ k, k < cfg.MaxRetries → (errs k).type ≠ some cfg.TimeoutErrorString) :
    _fetch cfg (fun k => if k = cfg.MaxRetries then .ok resp else .err (errs k)) =
      (.ok resp, cfg.MaxRetries) ∧
    (Fetcher.fetch cfg tr url options
        (fun k => if k = cfg.MaxRetries then .ok resp else .err (errs k)) t).result =
      .ok { status := resp.status, url := url, buf := resp.body } := by
  have hskip : _fetch cfg (fun k => if k = cfg.MaxRetries then .ok resp else .err (errs k)) =
      fetchFrom cfg (fun k => if k = cfg.MaxRetries then .ok resp else .err (errs k))
        cfg.MaxRetries :=
    fetchFrom_skip cfg _ cfg.MaxRetries 1 hM le_rfl
      (fun k _ hk2 => ⟨errs k, by simp [Nat.ne_of_lt hk2], hnt k hk2⟩)
  have hok : fetchFrom cfg (fun k => if k = cfg.MaxRetries then .ok resp else .err (errs k))
      cfg.MaxRetries = (.ok resp, cfg.MaxRetries) :=
    fetchFrom_ok cfg _ cfg.MaxRetries resp (by simp)
  have hfetch := hskip.trans hok
  refine ⟨hfetch, ?_⟩
  simp [Fetcher.fetch, Fetcher.fetchMerged, hfetch]

/-- Claim C4: a first attempt that rejects with a timeout-classified error is
never retried, for any `MaxRetries ≥ 1`: `_fetch` fails after exactly one
attempt with that error, and `Fetcher.fetch` surfaces it. -/
theorem timeoutNeverRetried (cfg : Config) (oracle : Nat → Outcome) (e : Err)
    (tr : Bool) (url : String) (options : Obj) (t : Nat)
    (_hM : 1 ≤ cfg.MaxRetries)
    (h1 : oracle 1 = .err e)
    (ht : e.type = some cfg.TimeoutErrorString) :
    _fetch cfg oracle = (.err e, 1) ∧
    (Fetcher.fetch cfg tr url options oracle t).result = .error e := by
  have hfetch : _fetch cfg oracle = (.err e, 1) :=
    fetchFrom_stop cfg oracle 1 e h1 (by intro hc; exact hc.2 ht)
  refine ⟨hfetch, ?_⟩
  simp [Fetcher.fetch, Fetcher.fetchMerged, hfetch]

/-- Claim C10: an attempt on which the transport returns a response ends the
retrying transport immediately with that response, whatever its status code,
and every attempt before the one that produced the final outcome rejected
with a (non-timeout) error — a returned response never triggers a retry. -/
theorem responseNeverRetried (cfg : Config) (oracle : Nat → Outcome) :
    (∀ k r, oracle k = .ok r → fetchFrom cfg oracle k = (.ok r, k)) ∧
    (∀ k, 1 ≤ k → k < (_fetch cfg oracle).2 →
      ∃ e, oracle k = .err e ∧ e.type ≠ some cfg.TimeoutErrorString) := by
  constructor
  · exact fun k r h => fetchFrom_ok cfg oracle k r h
  · intro k hk1 hk2
    exact fetchFrom_earlier_err cfg oracle (cfg.MaxRetries - 1) 1 le_rfl k hk1 hk2

/-- Witness for C2 at `cfgEx` (three attempts): the third reset error
surfaces. -/
theorem retryExhaustion_witness :
    _fetch cfgEx (fun k => .err (errsW k)) = (.err (errsW 3), 3) ∧
    (Fetcher.fetch cfgEx true urlW [] (fun k => .err (errsW k)) 0).result =
      .error (errsW 3) :=
  retryExhaustion cfgEx errsW true urlW [] 0 (by decide)
    (fun k => by simp [errsW, cfgEx])

/-- Witness for C3 at `cfgEx`: two resets, then success on the third and
final allowed attempt. -/
theorem retrySucceedsOnFinalAttempt_witness :
    _fetch cfgEx (fun k => if k = cfgEx.MaxRetries then .ok respW else .err (errsW k)) =
      (.ok respW, cfgEx.MaxRetries) ∧
    (Fetcher.fetch cfgEx true urlW []
        (fun k => if k = cfgEx.MaxRetries then .ok respW else .err (errsW k)) 0).result =
      .ok { status := respW.status, url := urlW, buf := respW.body } :=
  retrySucceedsOnFinalAttempt cfgEx errsW respW true urlW [] 0 (by decide)
    (fun k _ => by simp [errsW, cfgEx])

/-- Witness for C4 at `cfgWarn`: the timeout error ends the call on attempt
one although a retry would have been allowed. -/
theorem timeoutNeverRetried_witness :
    _fetch cfgWarn oracleTimeout = (.err timeoutErrW, 1) ∧
    (Fetcher.fetch cfgWarn true urlW [] oracleTimeout 0).result = .error timeoutErrW :=
  timeoutNeverRetried cfgWarn oracleTimeout timeoutErrW true urlW [] 0 (by decide)
    (by decide) (by decide)

/-- Witness for C10 at `cfgEx`: a 404 response on the first attempt is
returned at once. -/
theorem responseNeverRetried_witness :
    fetchFrom cfgEx oracle404 1 = (.ok { status := 404, body := "missing" }, 1) :=
  (responseNeverRetried cfgEx oracle404).1 1 { status := 404, body := "missing" } (by decide)

/-- Claim C1 (amended): for a call whose transport phase succeeds, if the
elapsed whole seconds reach `WarnAfterSeconds` then exactly one warning line
containing the url and the elapsed seconds is logged, and none otherwise —
regardless of whether metrics tracking is active; a call whose transport
phase fails emits no warning at all (the warning check sits on the success
path only). -/
theorem slowCallWarning (cfg : Config) (tr : Bool) (url : String)
    (options : Obj) (oracle : Nat → Outcome) (t : Nat) :
    (∀ r k, _fetch cfg oracle = (.ok r, k) → cfg.WarnAfterSeconds ≤ t →
      (Fetcher.fetch cfg tr url options oracle t).warns = [warnMessage url t]) ∧
    (∀ r k, _fetch cfg oracle = (.ok r, k) → t < cfg.WarnAfterSeconds →
      (Fetcher.fetch cfg tr url options oracle t).warns = []) ∧
    (∀ e k, _fetch cfg oracle = (.err e, k) →
      (Fetcher.fetch cfg tr url options oracle t).warns = []) ∧
    strContains (warnMessage url t) url ∧
    strContains (warnMessage url t) (toString t) := by
  refine ⟨?_, ?_, ?_, ?_, ?_⟩
  · intro r k hfetch hle
    simp [Fetcher.fetch, Fetcher.fetchMerged, hfetch, hle]
  · intro r k hfetch hlt
    simp [Fetcher.fetch, Fetcher.fetchMerged, hfetch, Nat.not_le_of_lt hlt]
  · intro e k hfetch
    simp [Fetcher.fetch, Fetcher.fetchMerged, hfetch]
  · exact ⟨"Request to ", " took " ++ toString t ++ " seconds to execute.",
      by simp [warnMessage, String.append_assoc]⟩
  · exact ⟨"Request to " ++ url ++ " took ", " seconds to execute.",
      by simp [warnMessage, String.append_assoc]⟩

/-- Counterexample to C1 as stated: with `cfgWarn` (warn threshold three
seconds) and a transport that always rejects with a timeout, a call whose
elapsed time is five seconds fails — and logs no warning at all, although the
claim requires exactly one warning for every call at or above the threshold,
successful or not. -/
theorem slowCallWarning_cex :
    cfgWarn.WarnAfterSeconds ≤ 5 ∧
    (Fetcher.fetch cfgWarn true urlW [] oracleTimeout 5).warns = [] ∧
    (Fetcher.fetch cfgWarn true urlW [] oracleTimeout 5).result = .error timeoutErrW := by
  refine ⟨by decide, by decide, by decide⟩

/-- Witness for C1 (amended) at `cfgEx`: a successful call that took twelve
whole seconds logs the single warning line. -/
theorem slowCallWarning_witness :
    cfgEx.WarnAfterSeconds ≤ 12 ∧
    (Fetcher.fetch cfgEx true urlW [] oracleOkW 12).warns = [warnMessage urlW 12] :=
  ⟨by decide, (slowCallWarning cfgEx true urlW [] oracleOkW 12).1 respW 1 (by decide)
    (by decide)⟩

/-- Claim C7: exactly one histogram observation is recorded iff a tracker is
registered and the merged options do not set a truthy `skipTrackRequest`,
and zero otherwise; the call's own result does not depend on whether a
tracker is registered, so a call made before registration still succeeds. -/
theorem trackingObservationIff (cfg : Config) (tr : Bool) (url : String)
    (options : Obj) (oracle : Nat → Outcome) (t : Nat) :
    ((Fetcher.fetch cfg tr url options oracle t).observations = 1 ↔
      tr = true ∧
        truthy (objGet (Fetcher._setDefaultOptions cfg options) "skipTrackRequest") = false) ∧
    ((Fetcher.fetch cfg tr url options oracle t).observations = 0 ↔
      ¬ (tr = true ∧
        truthy (objGet (Fetcher._setDefaultOptions cfg options) "skipTrackRequest") = false)) ∧
    (Fetcher.fetch cfg false url options oracle t).result =
      (Fetcher.fetch cfg tr url options oracle t).result ∧
    (∀ r k, _fetch cfg oracle = (.ok r, k) →
      (Fetcher.fetch cfg tr url options oracle t).result.isOk = true) := by
  refine ⟨?_, ?_, ?_, ?_⟩
  · rcases hF : _fetch cfg oracle with ⟨o, k⟩
    cases htr : tr <;>
      cases htruthy : truthy (objGet (Fetcher._setDefaultOptions cfg options) "skipTrackRequest") <;>
      rcases o with r | e <;>
      simp [Fetcher.fetch, Fetcher.fetchMerged, hF, htr, htruthy]
  · rcases hF : _fetch cfg oracle with ⟨o, k⟩
    cases htr : tr <;>
      cases htruthy : truthy (objGet (Fetcher._setDefaultOptions cfg options) "skipTrackRequest") <;>
      rcases o with r | e <;>
      simp [Fetcher.fetch, Fetcher.fetchMerged, hF, htr, htruthy]
  · rcases hF : _fetch cfg oracle with ⟨o, k⟩
    rcases o with r | e <;>
      simp [Fetcher.fetch, Fetcher.fetchMerged, hF]
  · intro r k hF
    simp [Fetcher.fetch, Fetcher.fetchMerged, hF, Except.isOk, Except.toBool]

/-- Witness for C7 at `cfgEx`: `skipTrackRequest: true` yields zero
observations although a tracker is registered; without it the same call
records one; with no tracker registered the call still succeeds. -/
theorem trackingObservationIff_witness :
    (Fetcher.fetch cfgEx true urlW [("skipTrackRequest", JsVal.bool true)] oracleOkW 0).observations = 0 ∧
    (Fetcher.fetch cfgEx true urlW [] oracleOkW 0).observations = 1 ∧
    (Fetcher.fetch cfgEx false urlW [] oracleOkW 0).result.isOk = true :=
  ⟨(trackingObservationIff cfgEx true urlW [("skipTrackRequest", JsVal.bool true)]
      oracleOkW 0).2.1.mpr (by decide),
   (trackingObservationIff cfgEx true urlW [] oracleOkW 0).1.mpr (by decide),
   (trackingObservationIff cfgEx false urlW [] oracleOkW 0).2.2.2 respW 1 (by decide)⟩

/-- Claim C8: a call whose transport phase fails logs exactly one error line,
containing the url, the error's message and the elapsed seconds, and re-fails
with the original error object unchanged. -/
theorem failureLoggedAndRethrown (cfg : Config) (tr : Bool) (url : String)
    (options : Obj) (oracle : Nat → Outcome) (t : Nat) (e : Err) (k : Nat)
    (hfail : _fetch cfg oracle = (.err e, k)) :
    (Fetcher.fetch cfg tr url options oracle t).errors = [errorMessage url e.message t] ∧
    (Fetcher.fetch cfg tr url options oracle t).result = .error e ∧
    strContains (errorMessage url e.message t) url ∧
    strContains (errorMessage url e.message t) e.message ∧
    strContains (errorMessage url e.message t) (toString t) := by
  refine ⟨?_, ?_, ?_, ?_, ?_⟩
  · simp [Fetcher.fetch, Fetcher.fetchMerged, hfail]
  · simp [Fetcher.fetch, Fetcher.fetchMerged, hfail]
  · exact ⟨"Failed request for ",
      " with \"" ++ e.message ++ "\" after " ++ toString t ++ " seconds",
      by simp [errorMessage, String.append_assoc]⟩
  · exact ⟨"Failed request for " ++ url ++ " with \"",
      "\" after " ++ toString t ++ " seconds",
      by simp [errorMessage, String.append_assoc]⟩
  · exact ⟨"Failed request for " ++ url ++ " with \"" ++ e.message ++ "\" after ",
      " seconds",
      by simp [errorMessage, String.append_assoc]⟩

/-- Witness for C8 at `cfgWarn`: the timeout failure logs the one error line
and rethrows the timeout error itself. -/
theorem failureLoggedAndRethrown_witness :
    (Fetcher.fetch cfgWarn true urlW [] oracleTimeout 7).errors =
      [errorMessage urlW timeoutErrW.message 7] ∧
    (Fetcher.fetch cfgWarn true urlW [] oracleTimeout 7).result = .error timeoutErrW ∧
    strContains (errorMessage urlW timeoutErrW.message 7) urlW ∧
    strContains (errorMessage urlW timeoutErrW.message 7) timeoutErrW.message ∧
    strContains (errorMessage urlW timeoutErrW.message 7) (toString 7) :=
  failureLoggedAndRethrown cfgWarn true urlW [] oracleTimeout 7 timeoutErrW 1 (by decide)

/-- Claim C5 (amended): for every successful fetch the transport body is
drained exactly once, and the returned response's accessors are pure
functions of that one buffer: any accessor repeated anywhere in any call
sequence returns the identical result (in particular two `text()` calls
return identical strings), `text()` and `buffer()` always succeed and both
return the drained buffer, and `json()` succeeds exactly when the buffered
bytes are valid JSON. -/
theorem bufferedSingleRead (cfg : Config) (tr : Bool) (url : String)
    (options : Obj) (oracle : Nat → Outcome) (t : Nat) (r : RawResponse) (k : Nat)
    (hok : _fetch cfg oracle = (.ok r, k)) :
    (Fetcher.fetch cfg tr url options oracle t).bodyReads = 1 ∧
    (Fetcher.fetch cfg tr url options oracle t).result =
      .ok { status := r.status, url := url, buf := r.body } ∧
    (∀ (calls : List Accessor) (i j : Nat), calls[i]? = calls[j]? →
      (runCalls { status := r.status, url := url, buf := r.body } calls)[i]? =
        (runCalls { status := r.status, url := url, buf := r.body } calls)[j]?) ∧
    BufferedResponse.call { status := r.status, url := url, buf := r.body } .text =
      .str r.body ∧
    BufferedResponse.call { status := r.status, url := url, buf := r.body } .buffer =
      .bytes r.body ∧
    ((BufferedResponse.call { status := r.status, url := url, buf := r.body }
        .json).succeeded = true ↔ ∃ v, jsonParse r.body = .ok v) := by
  refine ⟨?_, ?_, ?_, ?_, ?_, ?_⟩
  · simp [Fetcher.fetch, Fetcher.fetchMerged, hok]
  · simp [Fetcher.fetch, Fetcher.fetchMerged, hok]
  · intro calls i j hij
    simp only [runCalls, List.getElem?_map, hij]
  · simp [BufferedResponse.call, BufferedResponse.text]
  · simp [BufferedResponse.call, BufferedResponse.buffer]
  · rcases hp : jsonParse r.body with v | m <;>
      simp [BufferedResponse.call, BufferedResponse.json, hp, AccResult.succeeded]

/-- Counterexample to C5 as stated: a successful call whose body is
`"not json"` returns a response on which the `json()` accessor does not
succeed, although the claim says every accessor always succeeds. -/
theorem bufferedSingleRead_cex :
    (Fetcher.fetch cfgEx true urlW [] oracleBadBody 0).result =
      .ok { status := 200, url := urlW, buf := "not json" } ∧
    (BufferedResponse.call { status := 200, url := urlW, buf := "not json" }
        .json).succeeded = false := by
  refine ⟨by decide, by rfl⟩

/-- Witness for C5 (amended) at `cfgEx`: one drain, and the first and third
calls of the sequence text–buffer–text agree. -/
theorem bufferedSingleRead_witness :
    (Fetcher.fetch cfgEx true urlW [] oracleOkW 0).bodyReads = 1 ∧
    (runCalls { status := respW.status, url := urlW, buf := respW.body }
        [.text, .buffer, .text])[0]? =
      (runCalls { status := respW.status, url := urlW, buf := respW.body }
        [.text, .buffer, .text])[2]? :=
  ⟨(bufferedSingleRead cfgEx true urlW [] oracleOkW 0 respW 1 (by decide)).1,
   (bufferedSingleRead cfgEx true urlW [] oracleOkW 0 respW 1 (by decide)).2.2.1
     [.text, .buffer, .text] 0 2 (by decide)⟩

/-- Claim C6: when the buffered body is not valid JSON the fetch itself still
succeeds, and the `json()` accessor fails — at its own call time — with an
error whose message contains the requested url, the status code and the raw
body text. -/
theorem jsonFailureDiagnostics (cfg : Config) (tr : Bool) (url : String)
    (options : Obj) (oracle : Nat → Outcome) (t : Nat) (r : RawResponse) (k : Nat)
    (pe : String)
    (hok : _fetch cfg oracle = (.ok r, k))
    (hbad : jsonParse r.body = .error pe) :
    (Fetcher.fetch cfg tr url options oracle t).result =
      .ok { status := r.status, url := url, buf := r.body } ∧
    BufferedResponse.json { status := r.status, url := url, buf := r.body } =
      .error (jsonErrorMessage url r.status r.body pe) ∧
    strContains (jsonErrorMessage url r.status r.body pe) url ∧
    strContains (jsonErrorMessage url r.status r.body pe) (toString r.status) ∧
    strContains (jsonErrorMessage url r.status r.body pe) r.body := by
  refine ⟨?_, ?_, ?_, ?_, ?_⟩
  · simp [Fetcher.fetch, Fetcher.fetchMerged, hok]
  · simp [BufferedResponse.json, hbad]
  · exact ⟨"Error parsing response from ",
      ". Status: " ++ toString r.status ++ ". Body: " ++ r.body ++ ". " ++ pe,
      by simp [jsonErrorMessage, String.append_assoc]⟩
  · exact ⟨"Error parsing response from " ++ url ++ ". Status: ",
      ". Body: " ++ r.body ++ ". " ++ pe,
      by simp [jsonErrorMessage, String.append_assoc]⟩
  · exact ⟨"Error parsing response from " ++ url ++ ". Status: " ++ toString r.status ++
        ". Body: ",
      ". " ++ pe,
      by simp [jsonErrorMessage, String.append_assoc]⟩

/-- Witness for C6 at `cfgEx`: body `"not json"` makes `json()` fail with the
diagnostic message while the fetch succeeded. -/
theorem jsonFailureDiagnostics_witness :
    (Fetcher.fetch cfgEx true urlW [] oracleBadBody 0).result =
      .ok { status := 200, url := urlW, buf := "not json" } ∧
    BufferedResponse.json { status := 200, url := urlW, buf := "not json" } =
      .error (jsonErrorMessage urlW 200 "not json" "SyntaxError: Unexpected token in JSON") ∧
    strContains (jsonErrorMessage urlW 200 "not json" "SyntaxError: Unexpected token in JSON")
      urlW ∧
    strContains (jsonErrorMessage urlW 200 "not json" "SyntaxError: Unexpected token in JSON")
      (toString 200) ∧
    strContains (jsonErrorMessage urlW 200 "not json" "SyntaxError: Unexpected token in JSON")
      "not json" :=
  jsonFailureDiagnostics cfgEx true urlW [] oracleBadBody 0
    { status := 200, body := "not json" } 1 "SyntaxError: Unexpected token in JSON"
    (by decide) (by rfl)

/-- Claim C9: the caller's option object is never mutated — after the whole
fetch call (successful or failed) the heap still holds the original object at
the caller's reference, and the merged options live in a distinct, freshly
allocated object holding the defaults overridden by the caller's fields. -/
theorem optionsNotMutated (cfg : Config) (tr : Bool) (url : String) (h : Heap)
    (optRef : Nat) (oracle : Nat → Outcome) (t : Nat)
    (hvalid : optRef < h.objs.length) :
    Heap.get (Fetcher.fetchHeap cfg tr url h optRef oracle t).2.1 optRef =
      Heap.get h optRef ∧
    (Fetcher.fetchHeap cfg tr url h optRef oracle t).2.2 ≠ optRef ∧
    Heap.get (Fetcher.fetchHeap cfg tr url h optRef oracle t).2.1
        (Fetcher.fetchHeap cfg tr url h optRef oracle t).2.2 =
      some (objAssign cfg.DefaultRequestOptions ((Heap.get h optRef).getD [])) := by
  refine ⟨?_, ?_, ?_⟩
  · simp only [Fetcher.fetchHeap, Fetcher._setDefaultOptionsHeap, Heap.alloc, Heap.get]
    rw [List.getElem?_append]
    simp [hvalid]
  · simp only [Fetcher.fetchHeap, Fetcher._setDefaultOptionsHeap, Heap.alloc, Heap.get]
    omega
  · simp [Fetcher.fetchHeap, Fetcher._setDefaultOptionsHeap, Heap.alloc, Heap.get]

/-- Witness for C9 at a one-object heap: the caller's object at reference 0
is intact after the call, and the merged object sits at the fresh
reference 1. -/
theorem optionsNotMutated_witness :
    Heap.get (Fetcher.fetchHeap cfgEx true urlW heapW 0 oracleOkW 0).2.1 0 =
      Heap.get heapW 0 ∧
    (Fetcher.fetchHeap cfgEx true urlW heapW 0 oracleOkW 0).2.2 ≠ 0 ∧
    Heap.get (Fetcher.fetchHeap cfgEx true urlW heapW 0 oracleOkW 0).2.1
        (Fetcher.fetchHeap cfgEx true urlW heapW 0 oracleOkW 0).2.2 =
      some (objAssign cfgEx.DefaultRequestOptions ((Heap.get heapW 0).getD [])) :=
  optionsNotMutated cfgEx true urlW heapW 0 oracleOkW 0 (by decide)
